import Mathlib

/-!
Shallow embedding of the SuperScribe voice-capture utility
(`superscribe_win.py`): the `AudioRecorder`, `TranscriptionService` and
`SuperScribeApp` classes, with external collaborators (audio device,
filesystem, network service, clipboard, tray notifier, threads) modelled
as explicit parameters and an effect trace.  Hotkey callbacks are
serialized by the keyboard library's single dispatch thread, so each
handler is embedded as an atomic function on the application state that
also returns the list of side effects it performs, in order.
-/

/- Python string helpers used by the source (`str.lower`, `str.endswith`,
`str.startswith`), modelled over the character list of the string.
`Char.toLower` matches Python `lower` on the ASCII range, which covers
every extension and error message the program compares. -/

def pyLower (s : String) : String := ⟨s.data.map Char.toLower⟩

def pyEndsWith (s suf : String) : Bool := List.isSuffixOf suf.data s.data

def pyStartsWith (s pre : String) : Bool := List.isPrefixOf pre.data s.data

/- One chunk of raw PCM bytes read from the device per `stream.read` call. -/
abbrev Chunk := List Nat

/- The on-disk store, a path-to-bytes association list; lookup takes the
most recently written entry. -/
abbrev FileSystem := List (String × List Nat)

/- Model of `os.path.exists`. -/
def pathExists (fs : FileSystem) (p : String) : Bool := (fs.lookup p).isSome

/- Model of `os.path.getsize` (0 for a missing file; the source only calls
it after an existence check). -/
def getSize (fs : FileSystem) (p : String) : Nat := ((fs.lookup p).getD []).length

/- Work items the source hands to `threading.Thread`: the capture loop
`AudioRecorder._record`.  `transcribeWork` names the (never constructed by
the source) dispatch of a transcription to a worker thread, so that
"dispatched off the event-handling thread" is statable. -/
inductive ThreadWork where
  | recordLoop
  | transcribeWork (file : String)
deriving Repr, DecidableEq

/- Side effects performed by the handlers, in program order.  Effects in a
handler's returned list run on the event-dispatch thread itself, except
that `spawnThread w` hands `w` to a new background thread. -/
inductive Effect where
  | openStream
  | spawnThread (w : ThreadWork)
  | transcribeCall (file : String)
  | clipboardCopy (text : String)
  | pasteKeystroke
  | notify (title : String) (message : String)
deriving Repr, DecidableEq

/- The `(title, message)` pairs of the tray notifications in an effect
list, in order. -/
def notifications (effs : List Effect) : List (String × String) :=
  effs.filterMap fun e =>
    match e with
    | Effect.notify t m => some (t, m)
    | _ => none

/- `AudioRecorder` state: `is_recording`, whether `self.audio` was
initialized (`audioInit = false` models `self.audio is None`), and the
captured `frames`. -/
structure Recorder where
  is_recording : Bool
  audioInit : Bool
  frames : List Chunk
deriving Repr, DecidableEq

/- `AudioRecorder.start_recording`: fails returning `False` when PyAudio is
not initialized; otherwise clears `frames`, sets `is_recording`, opens the
input stream (`streamOk` says whether `self.audio.open` succeeds) and
spawns the capture-loop thread.  On a stream-open exception `is_recording`
is reset and `False` returned. -/
def start_recording (r : Recorder) (streamOk : Bool) :
    Recorder × Bool × List Effect :=
  if r.audioInit = false then (r, false, [])
  else if streamOk then
    ({ r with frames := [], is_recording := true }, true,
     [Effect.openStream, Effect.spawnThread ThreadWork.recordLoop])
  else
    ({ r with frames := [], is_recording := false }, false, [Effect.openStream])

/- One iteration of `AudioRecorder._record`: while `is_recording`, a chunk
read from the stream is appended to `frames`. -/
def record_chunk (r : Recorder) (data : Chunk) : Recorder :=
  if r.is_recording then { r with frames := r.frames ++ [data] } else r

/- The capture loop appending a sequence of chunks in capture order. -/
def record_chunks (r : Recorder) (cs : List Chunk) : Recorder :=
  cs.foldl record_chunk r

/- `recording_<timestamp>.wav` inside the `recordings` storage directory
(`os.path.join(self.storage_dir, f"recording_{timestamp}.wav")`). -/
def recFileName (ts : String) : String :=
  "recordings/recording_" ++ ts ++ ".wav"

/- The `wave` module writes a 44-byte PCM container header (RIFF, fmt and
data chunk descriptors) ahead of the sample data; the header's byte values
are irrelevant to every property here, only its length matters. -/
def wavHeaderSize : Nat := 44

def wavHeader : List Nat := List.replicate wavHeaderSize 0

/- Bytes of the file written by `wave.open(...).writeframes(b''.join(frames))`:
header followed by the concatenation of the captured chunks. -/
def wavFileBytes (frames : List Chunk) : List Nat := wavHeader ++ frames.flatten

/- The PCM data section of a written container file. -/
def wavDataSection (bytes : List Nat) : List Nat := bytes.drop wavHeaderSize

/- Frame count obtained on reading the file back: mono, 16-bit samples, so
two bytes per frame. -/
def wavFrameCountOf (bytes : List Nat) : Nat := (wavDataSection bytes).length / 2

/- `AudioRecorder.stop_recording`: `None` when not recording or PyAudio is
missing (state untouched); otherwise clears `is_recording`, joins the
capture thread, closes the stream, and returns `None` without touching the
disk when no frames were captured, else writes the timestamped WAV file
and returns its path. -/
def stop_recording (r : Recorder) (fs : FileSystem) (ts : String) :
    Recorder × FileSystem × Option String :=
  if r.is_recording = false ∨ r.audioInit = false then (r, fs, none)
  else
    let r' := { r with is_recording := false }
    if r'.frames = [] then (r', fs, none)
    else
      (r', (recFileName ts, wavFileBytes r'.frames) :: fs, some (recFileName ts))

/- Outcome of `model.generate_content` in `TranscriptionService`: a
response carrying `.text`, a falsy/`text`-less response, or a raised
exception with message `msg` (transport or service failure). -/
inductive GeminiResponse where
  | ok (text : String)
  | invalid
  | exn (msg : String)
deriving Repr, DecidableEq

/- MIME type inferred from the file extension in
`TranscriptionService.transcribe_audio_file` (default `audio/wav`). -/
def mime_type (audio_file : String) : String :=
  let lf := pyLower audio_file
  if pyEndsWith lf ".mp3" then "audio/mpeg"
  else if pyEndsWith lf ".wav" then "audio/wav"
  else if pyEndsWith lf ".m4a" then "audio/mp4"
  else if pyEndsWith lf ".ogg" then "audio/ogg"
  else "audio/wav"

/- `TranscriptionService.transcribe_audio_file`: validates existence and
non-emptiness, then issues one request to the service.  Returns the
transcription or an error string (the method never raises: every failure
is caught and returned as a string), paired with the request actually sent
(`some mimeType`) or `none` when validation failed before any network
activity. -/
def transcribe_audio_file (fs : FileSystem) (resp : GeminiResponse)
    (audio_file : String) : String × Option String :=
  if pathExists fs audio_file = false then
    ("Error: Audio file not found: " ++ audio_file, none)
  else if getSize fs audio_file = 0 then
    ("Error: Audio file is empty", none)
  else
    let req := some (mime_type audio_file)
    match resp with
    | GeminiResponse.ok t => (t, req)
    | GeminiResponse.invalid =>
        ("Error: Received invalid response from Gemini API", req)
    | GeminiResponse.exn m => ("Error during transcription: " ++ m, req)

/- One entry of `SuperScribeApp.history`. -/
structure HistoryEntry where
  timestamp : String
  audio_file : String
  transcription : String
deriving Repr, DecidableEq

/- `SuperScribeApp` state: the recorder, the `self.recording` flag, and the
in-memory history list. -/
structure AppState where
  recorder : Recorder
  recording : Bool
  history : List HistoryEntry
deriving Repr, DecidableEq

/- The session states of the specification.  The source controller exposes
a single boolean flag; transcription runs synchronously inside the
hotkey-release callback, so between dispatched events the controller is
`Recording` exactly when the flag is set and `Idle` otherwise. -/
inductive SessionState where
  | Idle
  | Recording
  | Transcribing
deriving Repr, DecidableEq

def sessionState (s : AppState) : SessionState :=
  if s.recording then SessionState.Recording else SessionState.Idle

/- `SuperScribeApp.on_hotkey_pressed`: guarded by `if not self.recording`;
sets the flag and calls `start_recording`, discarding its boolean result. -/
def on_hotkey_pressed (s : AppState) (streamOk : Bool) : AppState × List Effect :=
  if s.recording = false then
    let res := start_recording s.recorder streamOk
    ({ s with recording := true, recorder := res.1 }, res.2.2)
  else (s, [])

/- `SuperScribeApp.paste_text_at_cursor`: clipboard copy then a simulated
Ctrl+V keystroke. -/
def paste_text_at_cursor (text : String) : List Effect :=
  [Effect.clipboardCopy text, Effect.pasteKeystroke]

/- `SuperScribeApp.on_hotkey_released`: guarded by `if self.recording`;
clears the flag, stops the recorder, and if a file was produced calls the
transcriber synchronously (on this same callback), then routes the result
by the test `if transcription and not transcription.startswith("Error:")`:
paste, history append and success notification on the success side,
otherwise a failure notification; with no file, a recording-failed
notification.  `ts` is the stop timestamp, `now` the history timestamp. -/
def on_hotkey_released (s : AppState) (fs : FileSystem) (ts now : String)
    (resp : GeminiResponse) : AppState × FileSystem × List Effect :=
  if s.recording then
    let s0 : AppState := { s with recording := false }
    let stopRes := stop_recording s0.recorder fs ts
    let s1 : AppState := { s0 with recorder := stopRes.1 }
    let fs1 := stopRes.2.1
    match stopRes.2.2 with
    | some audio_file =>
        let transcription := (transcribe_audio_file fs1 resp audio_file).1
        if transcription ≠ "" ∧ pyStartsWith transcription "Error:" = false then
          ({ s1 with history :=
               s1.history ++ [⟨now, audio_file, transcription⟩] },
           fs1,
           Effect.transcribeCall audio_file :: paste_text_at_cursor transcription
             ++ [Effect.notify "SuperScribe"
                   "Transcription completed and pasted at cursor position"])
        else
          (s1, fs1,
           [Effect.transcribeCall audio_file,
            Effect.notify "SuperScribe"
              "Transcription failed. Check log for details."])
    | none =>
        (s1, fs1,
         [Effect.notify "SuperScribe"
            "Recording failed. Check microphone connection."])
  else (s, fs, [])

/- One complete hotkey-down / capture / hotkey-up cycle. -/
def full_cycle (s : AppState) (fs : FileSystem) (streamOk : Bool)
    (chunks : List Chunk) (ts now : String) (resp : GeminiResponse) :
    AppState × FileSystem × List Effect :=
  let p := on_hotkey_pressed s streamOk
  let sMid : AppState := { p.1 with recorder := record_chunks p.1.recorder chunks }
  let rel := on_hotkey_released sMid fs ts now resp
  (rel.1, rel.2.1, p.2 ++ rel.2.2)

/- A freshly constructed application: recorder initialized, idle, empty
history. -/
def idle0 : AppState :=
  { recorder := { is_recording := false, audioInit := true, frames := [] },
    recording := false, history := [] }

/- A mid-session state: flag set, recorder active with one captured chunk. -/
def recState : AppState :=
  { recorder := { is_recording := true, audioInit := true, frames := [[7, 8]] },
    recording := true, history := [] }

/- A mid-session state with three two-byte chunks. -/
def recState3 : Recorder :=
  { is_recording := true, audioInit := true, frames := [[1, 2], [3, 4], [5, 6]] }

theorem record_chunks_active (r : Recorder) (cs : List Chunk)
    (h : r.is_recording = true) :
    record_chunks r cs = { r with frames := r.frames ++ cs } := by
  induction cs generalizing r with
  | nil => simp [record_chunks]
  | cons c cs ih =>
      simp only [record_chunks, List.foldl_cons]
      rw [show List.foldl record_chunk (record_chunk r c) cs =
            record_chunks (record_chunk r c) cs from rfl]
      rw [ih (record_chunk r c) (by simp [record_chunk, h])]
      simp [record_chunk, h, List.append_assoc]

/-- Claim C1: while the controller is in any state other than `Idle` (its
`recording` flag is set; between dispatched events the non-`Idle` states
are exactly those), a hotkey-down event is a no-op: the application state
(session flag, recorder frame buffer, history list) is returned unchanged
and the effect list is empty, so in particular no stream is opened and no
capture thread is spawned, i.e. `AudioCapture.start()` is not invoked. -/
theorem c1_hotkey_down_nonidle_noop (s : AppState) (streamOk : Bool)
    (h : sessionState s ≠ SessionState.Idle) :
    on_hotkey_pressed s streamOk = (s, []) := by
  have hr : s.recording = true := by
    by_cases hb : s.recording
    · exact hb
    · exact absurd (by simp [sessionState, hb]) h
  simp [on_hotkey_pressed, hr]

/-- Witness for C1 at a concrete non-idle state. -/
theorem c1_witness :
    sessionState recState ≠ SessionState.Idle ∧
      on_hotkey_pressed recState true = (recState, []) :=
  ⟨by decide, c1_hotkey_down_nonidle_noop recState true (by decide)⟩

/-- Claim C5: `transcribe_audio_file` validates its path first: a
non-existent path yields the file-not-found error string and a zero-byte
file the empty-file error string, in both cases returned as an ordinary
value (the function is total, it cannot crash) with `none` as the request
component, i.e. without any request to the network service. -/
theorem c5_transcribe_validation :
    (∀ (fs : FileSystem) (resp : GeminiResponse) (p : String),
        pathExists fs p = false →
        transcribe_audio_file fs resp p =
          ("Error: Audio file not found: " ++ p, none)) ∧
    (∀ (fs : FileSystem) (resp : GeminiResponse) (p : String),
        pathExists fs p = true → getSize fs p = 0 →
        transcribe_audio_file fs resp p = ("Error: Audio file is empty", none)) := by
  constructor
  · intro fs resp p h
    simp [transcribe_audio_file, h]
  · intro fs resp p h h0
    simp [transcribe_audio_file, h, h0]

/-- Witness for C5: an empty filesystem misses `missing.wav`; a filesystem
holding a zero-byte `empty.wav` triggers the empty-file branch. -/
theorem c5_witness :
    (pathExists ([] : FileSystem) "missing.wav" = false ∧
      transcribe_audio_file [] (GeminiResponse.ok "hi") "missing.wav" =
        ("Error: Audio file not found: " ++ "missing.wav", none)) ∧
    (pathExists [("empty.wav", [])] "empty.wav" = true ∧
      getSize [("empty.wav", [])] "empty.wav" = 0 ∧
      transcribe_audio_file [("empty.wav", [])] (GeminiResponse.ok "hi") "empty.wav" =
        ("Error: Audio file is empty", none)) :=
  ⟨⟨by decide,
    c5_transcribe_validation.1 [] (GeminiResponse.ok "hi") "missing.wav" (by decide)⟩,
   ⟨by decide, by decide,
    c5_transcribe_validation.2 [("empty.wav", [])] (GeminiResponse.ok "hi")
      "empty.wav" (by decide) (by decide)⟩⟩

/-- Claim C7: stopping with zero captured chunks returns `none` (a plain
empty result, not an error) and leaves the filesystem untouched: no file is
created on disk. -/
theorem c7_stop_empty_no_file (r : Recorder) (fs : FileSystem) (ts : String)
    (hEmpty : r.frames = []) :
    (stop_recording r fs ts).2.1 = fs ∧ (stop_recording r fs ts).2.2 = none := by
  unfold stop_recording
  by_cases hg : r.is_recording = false ∨ r.audioInit = false
  · simp [hg]
  · simp [hg, hEmpty]

/-- Witness for C7 at an active recorder that captured nothing. -/
theorem c7_witness :
    ({ is_recording := true, audioInit := true, frames := [] } : Recorder).frames = [] ∧
    (stop_recording { is_recording := true, audioInit := true, frames := [] } [] "t").2.1 = [] ∧
    (stop_recording { is_recording := true, audioInit := true, frames := [] } [] "t").2.2 = none :=
  ⟨by decide,
   (c7_stop_empty_no_file { is_recording := true, audioInit := true, frames := [] }
      [] "t" (by decide)).1,
   (c7_stop_empty_no_file { is_recording := true, audioInit := true, frames := [] }
      [] "t" (by decide)).2⟩

/-- Claim C8: the inferred content-type is `audio/mpeg` for `.mp3`,
`audio/mp4` for `.m4a`, `audio/ogg` for `.ogg`, `audio/wav` for `.wav`, and
`audio/wav` for every path with any other or unknown extension (the
default). -/
theorem c8_mime_inference :
    mime_type "a.mp3" = "audio/mpeg" ∧
    mime_type "a.m4a" = "audio/mp4" ∧
    mime_type "a.ogg" = "audio/ogg" ∧
    mime_type "a.wav" = "audio/wav" ∧
    (∀ p : String,
        pyEndsWith (pyLower p) ".mp3" = false →
        pyEndsWith (pyLower p) ".m4a" = false →
        pyEndsWith (pyLower p) ".ogg" = false →
        mime_type p = "audio/wav") := by
  refine ⟨by decide, by decide, by decide, by decide, ?_⟩
  intro p h3 h4 hg
  unfold mime_type
  by_cases hw : pyEndsWith (pyLower p) ".wav" = true
  · simp [h3, h4, hg, hw]
  · simp [h3, h4, hg, hw]

/-- Witness for C8's universal part at the unknown extension `.flac`. -/
theorem c8_witness :
    pyEndsWith (pyLower "a.flac") ".mp3" = false ∧
    pyEndsWith (pyLower "a.flac") ".m4a" = false ∧
    pyEndsWith (pyLower "a.flac") ".ogg" = false ∧
    mime_type "a.flac" = "audio/wav" :=
  ⟨by decide, by decide, by decide,
   c8_mime_inference.2.2.2.2 "a.flac" (by decide) (by decide) (by decide)⟩

theorem wavFileBytes_length (frames : List Chunk) :
    (wavFileBytes frames).length = wavHeaderSize + frames.flatten.length := by
  simp [wavFileBytes, wavHeader]

theorem wavDataSection_wavFileBytes (frames : List Chunk) :
    wavDataSection (wavFileBytes frames) = frames.flatten := by
  unfold wavDataSection wavFileBytes
  rw [show wavHeaderSize = wavHeader.length by simp [wavHeader]]
  exact List.drop_left _ _

theorem stop_recording_active (r : Recorder) (fs : FileSystem) (ts : String)
    (hRec : r.is_recording = true) (hInit : r.audioInit = true)
    (hF : r.frames ≠ []) :
    stop_recording r fs ts =
      ({ r with is_recording := false },
       (recFileName ts, wavFileBytes r.frames) :: fs, some (recFileName ts)) := by
  unfold stop_recording
  rw [if_neg (by simp [hRec, hInit])]
  simp [hF]

theorem transcribe_written (fs : FileSystem) (resp : GeminiResponse)
    (ts : String) (frames : List Chunk) :
    transcribe_audio_file ((recFileName ts, wavFileBytes frames) :: fs) resp
        (recFileName ts) =
      ((match resp with
        | GeminiResponse.ok t => t
        | GeminiResponse.invalid => "Error: Received invalid response from Gemini API"
        | GeminiResponse.exn m => "Error during transcription: " ++ m),
       some (mime_type (recFileName ts))) := by
  have hex : pathExists ((recFileName ts, wavFileBytes frames) :: fs)
      (recFileName ts) = true := by
    simp [pathExists, List.lookup]
  have hsz : getSize ((recFileName ts, wavFileBytes frames) :: fs)
      (recFileName ts) ≠ 0 := by
    simp [getSize, List.lookup, wavFileBytes_length, wavHeaderSize]
  cases resp <;> simp [transcribe_audio_file, hex, hsz]

/-- Claim C6: stopping an active session holding N captured chunks of C
bytes each (N ≥ 1) writes a single file whose PCM data section is exactly
the concatenation of the chunks in capture order, of length N×C bytes, so
the frame count read back ((N×C)/2 for 16-bit mono) is the one written. -/
theorem c6_stop_writes_concatenation (r : Recorder) (fs : FileSystem)
    (ts : String) (n c : Nat)
    (hRec : r.is_recording = true) (hInit : r.audioInit = true)
    (hLen : r.frames.length = n) (hEach : ∀ ch ∈ r.frames, ch.length = c)
    (hN : 1 ≤ n) :
    (stop_recording r fs ts).2.2 = some (recFileName ts) ∧
    ((stop_recording r fs ts).2.1).lookup (recFileName ts)
        = some (wavFileBytes r.frames) ∧
    wavDataSection (wavFileBytes r.frames) = r.frames.flatten ∧
    (wavDataSection (wavFileBytes r.frames)).length = n * c ∧
    wavFrameCountOf (wavFileBytes r.frames) = n * c / 2 := by
  have hne : r.frames ≠ [] := by
    intro hnil
    rw [hnil] at hLen
    simp at hLen
    omega
  have hmap : r.frames.map List.length = List.replicate n c := by
    rw [List.eq_replicate_iff]
    refine ⟨by simp [hLen], ?_⟩
    intro b hb
    obtain ⟨ch, hch, rfl⟩ := List.mem_map.1 hb
    exact hEach ch hch
  have hflat : r.frames.flatten.length = n * c := by
    rw [List.length_flatten, hmap]
    simp [List.sum_replicate, smul_eq_mul]
  rw [stop_recording_active r fs ts hRec hInit hne]
  refine ⟨rfl, by simp [List.lookup], wavDataSection_wavFileBytes _, ?_, ?_⟩
  · rw [wavDataSection_wavFileBytes]
    exact hflat
  · rw [wavFrameCountOf, wavDataSection_wavFileBytes, hflat]

/-- Witness for C6: three two-byte chunks give a six-byte data section. -/
theorem c6_witness :
    recState3.is_recording = true ∧ recState3.audioInit = true ∧
    recState3.frames.length = 3 ∧ (∀ ch ∈ recState3.frames, ch.length = 2) ∧
    1 ≤ 3 ∧
    ((stop_recording recState3 [] "20240101_000000").2.2
        = some (recFileName "20240101_000000") ∧
     ((stop_recording recState3 [] "20240101_000000").2.1).lookup
         (recFileName "20240101_000000") = some (wavFileBytes recState3.frames) ∧
     wavDataSection (wavFileBytes recState3.frames) = recState3.frames.flatten ∧
     (wavDataSection (wavFileBytes recState3.frames)).length = 3 * 2 ∧
     wavFrameCountOf (wavFileBytes recState3.frames) = 3 * 2 / 2) :=
  ⟨by decide, by decide, by decide, by decide, by decide,
   c6_stop_writes_concatenation recState3 [] "20240101_000000" 3 2
     (by decide) (by decide) (by decide) (by decide) (by decide)⟩

theorem released_success_text (s : AppState) (fs : FileSystem) (ts now t : String)
    (hFlag : s.recording = true) (hRec : s.recorder.is_recording = true)
    (hInit : s.recorder.audioInit = true) (hFrames : s.recorder.frames ≠ [])
    (ht : t ≠ "" ∧ pyStartsWith t "Error:" = false) :
    on_hotkey_released s fs ts now (GeminiResponse.ok t) =
      ({ s with
          recording := false,
          recorder := { s.recorder with is_recording := false },
          history := s.history ++ [⟨now, recFileName ts, t⟩] },
       (recFileName ts, wavFileBytes s.recorder.frames) :: fs,
       [Effect.transcribeCall (recFileName ts),
        Effect.clipboardCopy t, Effect.pasteKeystroke,
        Effect.notify "SuperScribe"
          "Transcription completed and pasted at cursor position"]) := by
  simp only [on_hotkey_released, hFlag, if_true,
    stop_recording_active s.recorder fs ts hRec hInit hFrames,
    transcribe_written fs (GeminiResponse.ok t) ts s.recorder.frames]
  rw [if_pos ht]
  simp [paste_text_at_cursor]

theorem released_fail_text (s : AppState) (fs : FileSystem) (ts now t : String)
    (hFlag : s.recording = true) (hRec : s.recorder.is_recording = true)
    (hInit : s.recorder.audioInit = true) (hFrames : s.recorder.frames ≠ [])
    (ht : ¬(t ≠ "" ∧ pyStartsWith t "Error:" = false)) :
    on_hotkey_released s fs ts now (GeminiResponse.ok t) =
      ({ s with
          recording := false,
          recorder := { s.recorder with is_recording := false } },
       (recFileName ts, wavFileBytes s.recorder.frames) :: fs,
       [Effect.transcribeCall (recFileName ts),
        Effect.notify "SuperScribe"
          "Transcription failed. Check log for details."]) := by
  simp only [on_hotkey_released, hFlag, if_true,
    stop_recording_active s.recorder fs ts hRec hInit hFrames,
    transcribe_written fs (GeminiResponse.ok t) ts s.recorder.frames]
  rw [if_neg ht]

theorem released_no_file (s : AppState) (fs : FileSystem) (ts now : String)
    (resp : GeminiResponse) (hFlag : s.recording = true)
    (hStop : s.recorder.is_recording = false ∨ s.recorder.audioInit = false) :
    on_hotkey_released s fs ts now resp =
      ({ s with recording := false }, fs,
       [Effect.notify "SuperScribe"
          "Recording failed. Check microphone connection."]) := by
  simp only [on_hotkey_released, hFlag, if_true]
  rw [stop_recording]
  rw [if_pos (by simpa using hStop)]

theorem recording_false_of_idle (s : AppState)
    (h : sessionState s = SessionState.Idle) : s.recording = false := by
  by_cases hb : s.recording
  · simp [sessionState, hb] at h
  · simpa using hb

theorem pressed_idle_ok (s : AppState) (hrec : s.recording = false)
    (hInit : s.recorder.audioInit = true) :
    on_hotkey_pressed s true =
      ({ s with
          recording := true,
          recorder := { s.recorder with frames := [], is_recording := true } },
       [Effect.openStream, Effect.spawnThread ThreadWork.recordLoop]) := by
  simp [on_hotkey_pressed, start_recording, hrec, hInit]

/-- Claim C3: a full cycle — hotkey-down in `Idle` with a working device,
at least one captured chunk, hotkey-up — with the transcription service
returning "hello world"
appends exactly one history entry whose transcription field is
"hello world", copies the text to the clipboard and simulates a paste,
emits exactly one notification (the success one), returns the controller
to `Idle`, and leaves the recording file on disk. -/
theorem c3_full_cycle_hello (s : AppState) (fs : FileSystem)
    (chunks : List Chunk) (ts now : String)
    (hIdle : sessionState s = SessionState.Idle)
    (hInit : s.recorder.audioInit = true) (hChunks : chunks ≠ []) :
    (full_cycle s fs true chunks ts now (GeminiResponse.ok "hello world")).1.history
        = s.history ++ [⟨now, recFileName ts, "hello world"⟩] ∧
    sessionState (full_cycle s fs true chunks ts now
        (GeminiResponse.ok "hello world")).1 = SessionState.Idle ∧
    Effect.clipboardCopy "hello world"
        ∈ (full_cycle s fs true chunks ts now (GeminiResponse.ok "hello world")).2.2 ∧
    Effect.pasteKeystroke
        ∈ (full_cycle s fs true chunks ts now (GeminiResponse.ok "hello world")).2.2 ∧
    notifications (full_cycle s fs true chunks ts now
        (GeminiResponse.ok "hello world")).2.2
        = [("SuperScribe", "Transcription completed and pasted at cursor position")] ∧
    (full_cycle s fs true chunks ts now (GeminiResponse.ok "hello world")).2.1
        = (recFileName ts, wavFileBytes chunks) :: fs := by
  have hrec : s.recording = false := recording_false_of_idle s hIdle
  have hp := pressed_idle_ok s hrec hInit
  have hmid := record_chunks_active
      { s.recorder with frames := ([] : List Chunk), is_recording := true }
      chunks rfl
  have hrel := released_success_text
      { s with
          recording := true,
          recorder := { s.recorder with frames := chunks, is_recording := true } }
      fs ts now "hello world" rfl rfl hInit hChunks (by decide)
  simp only [full_cycle, hp]
  simp only [List.nil_append] at hmid
  simp only [hmid, hrel]
  simp [notifications, sessionState]

/-- Witness for C3 at the initial state with a single two-byte chunk. -/
theorem c3_witness :
    sessionState idle0 = SessionState.Idle ∧
    idle0.recorder.audioInit = true ∧
    ([[1, 2]] : List Chunk) ≠ [] ∧
    ((full_cycle idle0 [] true [[1, 2]] "20240101_000000" "now"
        (GeminiResponse.ok "hello world")).1.history
        = idle0.history ++ [⟨"now", recFileName "20240101_000000", "hello world"⟩] ∧
     sessionState (full_cycle idle0 [] true [[1, 2]] "20240101_000000" "now"
        (GeminiResponse.ok "hello world")).1 = SessionState.Idle ∧
     Effect.clipboardCopy "hello world"
        ∈ (full_cycle idle0 [] true [[1, 2]] "20240101_000000" "now"
            (GeminiResponse.ok "hello world")).2.2 ∧
     Effect.pasteKeystroke
        ∈ (full_cycle idle0 [] true [[1, 2]] "20240101_000000" "now"
            (GeminiResponse.ok "hello world")).2.2 ∧
     notifications (full_cycle idle0 [] true [[1, 2]] "20240101_000000" "now"
        (GeminiResponse.ok "hello world")).2.2
        = [("SuperScribe", "Transcription completed and pasted at cursor position")] ∧
     (full_cycle idle0 [] true [[1, 2]] "20240101_000000" "now"
        (GeminiResponse.ok "hello world")).2.1
        = (recFileName "20240101_000000", wavFileBytes [[1, 2]]) :: []) :=
  ⟨by decide, by decide, by decide,
   c3_full_cycle_hello idle0 [] [[1, 2]] "20240101_000000" "now"
     (by decide) (by decide) (by decide)⟩

/-- Claim C2, counterexample: from the freshly initialized idle state, a
hotkey-down whose `AudioCapture.start()` fails (stream open error) does
not leave the controller in `Idle` — the `recording` flag is set anyway,
because `on_hotkey_pressed` discards `start_recording`'s boolean result —
and no notification at all is emitted by the press handler. -/
theorem c2_counterexample :
    (start_recording idle0.recorder false).2.1 = false ∧
    sessionState (on_hotkey_pressed idle0 false).1 ≠ SessionState.Idle ∧
    notifications (on_hotkey_pressed idle0 false).2 = [] := by
  decide

/-- Claim C2, amended: a hotkey-down in `Idle` whose `AudioCapture.start()`
fails still sets the controller's `recording` flag (the state leaves
`Idle`) and emits no notification and, because of that flag, the failure
surfaces only at the next hotkey-up, which returns the controller to
`Idle`, leaves history and disk unchanged, and emits exactly one failure
notification. -/
theorem c2_amended_deferred (s : AppState) (fs : FileSystem) (streamOk : Bool)
    (ts now : String) (resp : GeminiResponse)
    (hIdle : sessionState s = SessionState.Idle)
    (hFail : (start_recording s.recorder streamOk).2.1 = false) :
    notifications (on_hotkey_pressed s streamOk).2 = [] ∧
    sessionState (on_hotkey_pressed s streamOk).1 ≠ SessionState.Idle ∧
    (on_hotkey_pressed s streamOk).1.history = s.history ∧
    sessionState (on_hotkey_released (on_hotkey_pressed s streamOk).1
        fs ts now resp).1 = SessionState.Idle ∧
    (on_hotkey_released (on_hotkey_pressed s streamOk).1 fs ts now resp).1.history
        = s.history ∧
    (on_hotkey_released (on_hotkey_pressed s streamOk).1 fs ts now resp).2.1 = fs ∧
    notifications (on_hotkey_released (on_hotkey_pressed s streamOk).1
        fs ts now resp).2.2
        = [("SuperScribe", "Recording failed. Check microphone connection.")] := by
  have hrec : s.recording = false := recording_false_of_idle s hIdle
  by_cases hai : s.recorder.audioInit = true
  · by_cases hso : streamOk = true
    · rw [start_recording] at hFail
      simp [hai, hso] at hFail
    · have hso' : streamOk = false := by simpa using hso
      have hp : on_hotkey_pressed s streamOk =
          ({ s with
              recording := true,
              recorder := { s.recorder with
                            frames := [], is_recording := false } },
           [Effect.openStream]) := by
        simp [on_hotkey_pressed, start_recording, hrec, hai, hso']
      have hrel := released_no_file
          { s with
              recording := true,
              recorder := { s.recorder with
                            frames := [], is_recording := false } }
          fs ts now resp rfl (Or.inl rfl)
      rw [hp]
      simp only [hrel]
      simp [notifications, sessionState]
  · have hai' : s.recorder.audioInit = false := by simpa using hai
    have hp : on_hotkey_pressed s streamOk =
        ({ s with recording := true }, []) := by
      simp [on_hotkey_pressed, start_recording, hrec, hai']
    have hrel := released_no_file ({ s with recording := true })
        fs ts now resp rfl (Or.inr hai')
    rw [hp]
    simp only [hrel]
    simp [notifications, sessionState]

/-- Witness for C2's amended claim at the initial state with a failing
stream open. -/
theorem c2_witness :
    sessionState idle0 = SessionState.Idle ∧
    (start_recording idle0.recorder false).2.1 = false ∧
    (notifications (on_hotkey_pressed idle0 false).2 = [] ∧
     sessionState (on_hotkey_pressed idle0 false).1 ≠ SessionState.Idle ∧
     (on_hotkey_pressed idle0 false).1.history = idle0.history ∧
     sessionState (on_hotkey_released (on_hotkey_pressed idle0 false).1
        [] "t" "n" (GeminiResponse.ok "hi")).1 = SessionState.Idle ∧
     (on_hotkey_released (on_hotkey_pressed idle0 false).1 [] "t" "n"
        (GeminiResponse.ok "hi")).1.history = idle0.history ∧
     (on_hotkey_released (on_hotkey_pressed idle0 false).1 [] "t" "n"
        (GeminiResponse.ok "hi")).2.1 = [] ∧
     notifications (on_hotkey_released (on_hotkey_pressed idle0 false).1
        [] "t" "n" (GeminiResponse.ok "hi")).2.2
        = [("SuperScribe", "Recording failed. Check microphone connection.")]) :=
  ⟨by decide, by decide,
   c2_amended_deferred idle0 [] false "t" "n" (GeminiResponse.ok "hi")
     (by decide) (by decide)⟩

/-- Claim C4 is wrong about the code: in a cycle where a file is produced
and the transcription raises a transport failure, the caught exception
becomes the string `Error during transcription: <msg>`, which does NOT
start with `Error:` (space, not colon, after `Error`), so the controller's
prefix test routes it down the SUCCESS path: the error text is pasted at
the cursor, appended to history as a bogus entry, and a success
notification is emitted — no failure notification at all.  (The file is
indeed retained and the controller does return to `Idle`.)  This theorem
evaluates the release handler at such a failing input. -/
theorem c4_code_bug_eval :
    (on_hotkey_released recState [] "20240101_000000" "now"
        (GeminiResponse.exn "Connection reset by peer")).1.history
        = [⟨"now", recFileName "20240101_000000",
            "Error during transcription: Connection reset by peer"⟩] ∧
    Effect.clipboardCopy "Error during transcription: Connection reset by peer"
        ∈ (on_hotkey_released recState [] "20240101_000000" "now"
            (GeminiResponse.exn "Connection reset by peer")).2.2 ∧
    notifications (on_hotkey_released recState [] "20240101_000000" "now"
        (GeminiResponse.exn "Connection reset by peer")).2.2
        = [("SuperScribe",
            "Transcription completed and pasted at cursor position")] ∧
    sessionState (on_hotkey_released recState [] "20240101_000000" "now"
        (GeminiResponse.exn "Connection reset by peer")).1 = SessionState.Idle ∧
    pathExists (on_hotkey_released recState [] "20240101_000000" "now"
        (GeminiResponse.exn "Connection reset by peer")).2.1
        (recFileName "20240101_000000") = true := by
  decide

/-- Claim C9, counterexample: at a concrete recording state whose hotkey-up
produces a file, the handler's effect trace contains no dispatch of the
transcription to a worker thread; instead it contains the synchronous
`transcribeCall`, performed on the event-handling thread itself. -/
theorem c9_counterexample :
    Effect.spawnThread (ThreadWork.transcribeWork (recFileName "20240102_030405"))
        ∉ (on_hotkey_released recState [] "20240102_030405" "n2"
            (GeminiResponse.ok "hi")).2.2 ∧
    Effect.transcribeCall (recFileName "20240102_030405")
        ∈ (on_hotkey_released recState [] "20240102_030405" "n2"
            (GeminiResponse.ok "hi")).2.2 := by
  decide

/-- Claim C9, amended: for every hotkey-up that produces an audio file and
for every service outcome, the release handler invokes the transcriber
synchronously on the event-handling thread (the `transcribeCall` effect is
in its inline effect list) and spawns no thread at all, so the blocking
network call runs on — and blocks — the hotkey-event dispatch path. -/
theorem c9_amended_synchronous (s : AppState) (fs : FileSystem)
    (ts now : String) (resp : GeminiResponse)
    (hFlag : s.recording = true) (hRec : s.recorder.is_recording = true)
    (hInit : s.recorder.audioInit = true) (hFrames : s.recorder.frames ≠ []) :
    Effect.transcribeCall (recFileName ts)
        ∈ (on_hotkey_released s fs ts now resp).2.2 ∧
    ∀ w : ThreadWork,
      Effect.spawnThread w ∉ (on_hotkey_released s fs ts now resp).2.2 := by
  simp only [on_hotkey_released, hFlag, if_true,
    stop_recording_active s.recorder fs ts hRec hInit hFrames]
  constructor
  · split
    · simp [paste_text_at_cursor]
    · simp
  · intro w
    split
    · simp [paste_text_at_cursor]
    · simp

/-- Witness for C9's amended claim at a concrete recording state. -/
theorem c9_witness :
    recState.recording = true ∧ recState.recorder.is_recording = true ∧
    recState.recorder.audioInit = true ∧ recState.recorder.frames ≠ [] ∧
    Effect.transcribeCall (recFileName "20240103_000000")
        ∈ (on_hotkey_released recState [] "20240103_000000" "n9"
            GeminiResponse.invalid).2.2 ∧
    Effect.spawnThread ThreadWork.recordLoop
        ∉ (on_hotkey_released recState [] "20240103_000000" "n9"
            GeminiResponse.invalid).2.2 :=
  ⟨by decide, by decide, by decide, by decide,
   (c9_amended_synchronous recState [] "20240103_000000" "n9"
      GeminiResponse.invalid (by decide) (by decide) (by decide) (by decide)).1,
   (c9_amended_synchronous recState [] "20240103_000000" "n9"
      GeminiResponse.invalid (by decide) (by decide) (by decide)
      (by decide)).2 ThreadWork.recordLoop⟩

/-- Claim C10: in a cycle producing a file whose transcription request
returns text `t`, the controller classifies success purely by the string
test `t` non-empty and not starting with `Error:` — the text is delivered
(clipboard + paste) and a history entry appended exactly in that case.
Consequently a genuine transcript that happens to begin with `Error:` is
treated as a failure: at a concrete such input nothing is delivered, no
history entry is appended, and the failure notification is emitted.
(Every failure of `transcribe_audio_file` is likewise a plain `String`,
indistinguishable in type from a transcript.) -/
theorem c10_prefix_classification :
    (∀ (s : AppState) (fs : FileSystem) (ts now t : String),
        s.recording = true → s.recorder.is_recording = true →
        s.recorder.audioInit = true → s.recorder.frames ≠ [] →
        (((on_hotkey_released s fs ts now (GeminiResponse.ok t)).1.history
            = s.history ++ [⟨now, recFileName ts, t⟩] ∧
          Effect.clipboardCopy t
            ∈ (on_hotkey_released s fs ts now (GeminiResponse.ok t)).2.2 ∧
          Effect.pasteKeystroke
            ∈ (on_hotkey_released s fs ts now (GeminiResponse.ok t)).2.2) ↔
         (t ≠ "" ∧ pyStartsWith t "Error:" = false))) ∧
    ((on_hotkey_released recState [] "20240104_000000" "n10"
        (GeminiResponse.ok "Error: quoting a message")).1.history = [] ∧
     Effect.clipboardCopy "Error: quoting a message"
        ∉ (on_hotkey_released recState [] "20240104_000000" "n10"
            (GeminiResponse.ok "Error: quoting a message")).2.2 ∧
     notifications (on_hotkey_released recState [] "20240104_000000" "n10"
        (GeminiResponse.ok "Error: quoting a message")).2.2
        = [("SuperScribe", "Transcription failed. Check log for details.")]) := by
  constructor
  · intro s fs ts now t hFlag hRec hInit hFrames
    by_cases hcond : t ≠ "" ∧ pyStartsWith t "Error:" = false
    · rw [released_success_text s fs ts now t hFlag hRec hInit hFrames hcond]
      exact iff_of_true ⟨by simp, by simp, by simp⟩ hcond
    · rw [released_fail_text s fs ts now t hFlag hRec hInit hFrames hcond]
      exact iff_of_false (by simp) hcond
  · decide

/-- Witness for C10's universal part at a concrete state and text. -/
theorem c10_witness :
    recState.recording = true ∧ recState.recorder.is_recording = true ∧
    recState.recorder.audioInit = true ∧ recState.recorder.frames ≠ [] ∧
    (((on_hotkey_released recState [] "20240105_000000" "nw"
        (GeminiResponse.ok "hello")).1.history
        = recState.history ++ [⟨"nw", recFileName "20240105_000000", "hello"⟩] ∧
      Effect.clipboardCopy "hello"
        ∈ (on_hotkey_released recState [] "20240105_000000" "nw"
            (GeminiResponse.ok "hello")).2.2 ∧
      Effect.pasteKeystroke
        ∈ (on_hotkey_released recState [] "20240105_000000" "nw"
            (GeminiResponse.ok "hello")).2.2) ↔
     ("hello" ≠ "" ∧ pyStartsWith "hello" "Error:" = false)) :=
  ⟨by decide, by decide, by decide, by decide,
   c10_prefix_classification.1 recState [] "20240105_000000" "nw" "hello"
     (by decide) (by decide) (by decide) (by decide)⟩
